import Mathlib

/-!
Verification of the `ProjectCard` component
(`src/components/common/ProjectCard.tsx`).

The component renders a portfolio project card. Its logic is:
an image-source selection function with a category-keyed placeholder
fallback, two local boolean flags (`imageLoading`, `imageError`)
mutated only by the image `load` / `error` callbacks, and conditional
rendering of badges and links keyed on truthiness of optional fields.

We embed the data model and the rendering logic shallowly: optional
string fields become `Option String` (JS truthiness of such a field is
"present and non-empty"), the two flags become a `RenderState` record,
the two callbacks become a step function on `RenderState`, and the
rendered output becomes a record of the observable facts the claims
speak about (image `src`, spinner visibility, badges, tags, links).
-/

namespace ProjectCard

/-- JS truthiness of an optional string field: `undefined` and `""` are
falsy, every other string is truthy. -/
def optTruthy : Option String → Bool
  | none => false
  | some s => !s.isEmpty

/-- UTF-8 byte sequence of a Unicode code point (as natural numbers
below 256), exactly the encoding `encodeURIComponent` percent-encodes. -/
def utf8Bytes (n : Nat) : List Nat :=
  if n < 128 then [n]
  else if n < 2048 then [192 + n / 64, 128 + n % 64]
  else if n < 65536 then [224 + n / 4096, 128 + (n / 64) % 64, 128 + n % 64]
  else [240 + n / 262144, 128 + (n / 4096) % 64, 128 + (n / 64) % 64, 128 + n % 64]

/-- Upper-case hexadecimal digit for `n < 16`. -/
def hexDigit (n : Nat) : Char :=
  Char.ofNat (if n < 10 then 48 + n else 55 + n)

/-- A byte rendered as `%XY` with upper-case hex digits. -/
def percentEncodeByte (b : Nat) : String :=
  "%" ++ String.singleton (hexDigit (b / 16)) ++ String.singleton (hexDigit (b % 16))

/-- The characters `encodeURIComponent` leaves unescaped: the ASCII
letters and digits, hyphen, underscore, dot, exclamation mark, tilde,
asterisk, apostrophe and the two parentheses. -/
def isUnescapedURI (c : Char) : Bool :=
  (65 ≤ c.toNat && c.toNat ≤ 90) ||
  (97 ≤ c.toNat && c.toNat ≤ 122) ||
  (48 ≤ c.toNat && c.toNat ≤ 57) ||
  c.toNat == 45 || c.toNat == 95 || c.toNat == 46 || c.toNat == 33 ||
  c.toNat == 126 || c.toNat == 42 || c.toNat == 39 || c.toNat == 40 ||
  c.toNat == 41

/-- Model of JavaScript `encodeURIComponent`: unescaped characters are
kept, every other character is replaced by the percent-encoding of its
UTF-8 bytes. -/
def encodeURIComponent (s : String) : String :=
  String.join (s.data.map fun c =>
    if isUnescapedURI c then String.singleton c
    else String.join ((utf8Bytes c.toNat).map percentEncodeByte))

/-- The project record handed to the component (`Project` in
`src/types`, as used by `ProjectCard.tsx`). Optional URL fields are
`Option String`; `featured` is a boolean flag. The category arrives as
a string: the placeholder lookup must default for unrecognized values. -/
structure Project where
  title : String
  description : String
  category : String
  technologies : List String
  image : Option String
  github : Option String
  liveDemo : Option String
  featured : Bool

/-- The component-local state: the two `useState` flags. -/
structure RenderState where
  imageLoading : Bool
  imageError : Bool
deriving DecidableEq, Repr

/-- Initial state on mount: `useState(false)` for the error flag and
`useState(true)` for the loading flag. -/
def initialState : RenderState := { imageLoading := true, imageError := false }

/-- The `categoryColors` object literal inside `getImageSource`:
a lookup with exactly three keys; any other key yields `undefined`
(here `none`), which the `||` in the source replaces by the default. -/
def categoryColors (c : String) : Option String :=
  if c = "blockchain" then some "1e293b/0ea5e9"
  else if c = "frontend" then some "1e1b4b/a855f7"
  else if c = "fullstack" then some "422006/d97706"
  else none

/-- `getImageSource` from the source: if `project.image` is truthy and
no error has occurred, return it; otherwise build the placeholder URL
from the category color pair (defaulting via `||`) and the
`encodeURIComponent`-encoded title. -/
def getImageSource (p : Project) (s : RenderState) : String :=
  if optTruthy p.image && !s.imageError then p.image.getD ""
  else
    "https://via.placeholder.com/800x600/" ++
      (categoryColors p.category).getD "1e293b/64748b" ++
      "?text=" ++ encodeURIComponent p.title

/-- The two image events the component reacts to. -/
inductive ImgEvent where
  | load
  | error
deriving DecidableEq, Repr

/-- The state transition of the two callbacks:
`handleImageLoad` runs `setImageLoading(false)`;
`handleImageError` runs `setImageError(true); setImageLoading(false)`. -/
def step (s : RenderState) : ImgEvent → RenderState
  | ImgEvent.load => { s with imageLoading := false }
  | ImgEvent.error => { s with imageError := true, imageLoading := false }

/-- State after a sequence of image events, applied in order. -/
def runEvents (s : RenderState) (es : List ImgEvent) : RenderState :=
  es.foldl step s

/-- An anchor element as rendered: its `href`, `target` and `rel`
attributes. -/
structure Link where
  href : String
  target : String
  rel : String
deriving DecidableEq, Repr

/-- The observable rendered output of `ProjectCard` for a given project
and render state: the image `src`, whether the loading-spinner overlay
is mounted, whether each badge is mounted, the static texts, the
technology tags in order, and the two conditional links. -/
structure RenderedCard where
  imageSrc : String
  showSpinner : Bool
  liveDemoBadge : Bool
  featuredBadge : Bool
  categoryLabel : String
  titleText : String
  descriptionText : String
  techTags : List String
  githubLink : Option Link
  liveDemoLink : Option Link
deriving DecidableEq, Repr

/-- The render function of the component body: `imageSrc` is
`getImageSource()`, the spinner overlay is mounted iff `imageLoading`,
the badges are guarded by `project.liveDemo &&` and
`project.featured &&`, the tag list maps `project.technologies` in
order, and each link is guarded by truthiness of its field and carries
`target="_blank" rel="noopener noreferrer"`. -/
def render (p : Project) (s : RenderState) : RenderedCard :=
  { imageSrc := getImageSource p s
    showSpinner := s.imageLoading
    liveDemoBadge := optTruthy p.liveDemo
    featuredBadge := p.featured
    categoryLabel := p.category
    titleText := p.title
    descriptionText := p.description
    techTags := p.technologies
    githubLink :=
      if optTruthy p.github then
        some { href := p.github.getD "", target := "_blank", rel := "noopener noreferrer" }
      else none
    liveDemoLink :=
      if optTruthy p.liveDemo then
        some { href := p.liveDemo.getD "", target := "_blank", rel := "noopener noreferrer" }
      else none }

/-- The placeholder URL exactly as the specification states it:
`https://via.placeholder.com/800x600/` then the color pair
`bgHex/fgHex`, then `?text=` and the URL-encoded title, with the four
fixed color pairs keyed by category and the fourth pair as the default
for any other category. Stated independently of `getImageSource` so
the lookup-and-default of the code can be compared against it. -/
def placeholderSpec (category title : String) : String :=
  "https://via.placeholder.com/800x600/" ++
    (if category = "blockchain" then "1e293b/0ea5e9"
     else if category = "frontend" then "1e1b4b/a855f7"
     else if category = "fullstack" then "422006/d97706"
     else "1e293b/64748b") ++
    "?text=" ++ encodeURIComponent title

/-- A sample project with every optional field truthy. -/
def sampleProj : Project :=
  { title := "My App"
    description := "a demo"
    category := "blockchain"
    technologies := ["TypeScript"]
    image := some "https://example.com/a.png"
    github := some "https://github.com/u/r"
    liveDemo := some "https://demo.example.com"
    featured := true }

/-- The example project of the specification: title X, category
frontend, no image, technologies A and B, nothing else set. -/
def projX : Project :=
  { title := "X"
    description := ""
    category := "frontend"
    technologies := ["A", "B"]
    image := none
    github := none
    liveDemo := none
    featured := false }

/-- A project whose image field is present but the empty string, with
an unrecognized category and a title needing percent-encoding. -/
def projEmptyImage : Project :=
  { title := "A B"
    description := ""
    category := "ai"
    technologies := []
    image := some ""
    github := none
    liveDemo := none
    featured := false }

/-- Helper: a string has `isEmpty = false` exactly when it differs
from the empty string. -/
theorem isEmpty_false_iff (s : String) : s.isEmpty = false ↔ s ≠ "" := by
  rw [Bool.eq_false_iff]
  exact not_congr (String.isEmpty_iff s)

/-- Helper: an optional string field is truthy exactly when it holds a
non-empty string. -/
theorem optTruthy_eq_true_iff (o : Option String) :
    optTruthy o = true ↔ ∃ str : String, o = some str ∧ str ≠ "" := by
  cases o with
  | none => simp [optTruthy]
  | some s => simp [optTruthy, isEmpty_false_iff]

/-- Helper: whenever the truthy-image-and-no-error guard fails,
`getImageSource` produces exactly the placeholder URL the
specification states (the lookup with the `||` default agrees with
the four-way case split). -/
theorem getImageSource_fallback (p : Project) (s : RenderState)
    (h : (optTruthy p.image && !s.imageError) = false) :
    getImageSource p s = placeholderSpec p.category p.title := by
  rw [getImageSource, if_neg (by simp [h])]
  rw [placeholderSpec, categoryColors]
  by_cases h1 : p.category = "blockchain" <;>
    by_cases h2 : p.category = "frontend" <;>
      by_cases h3 : p.category = "fullstack" <;>
        simp [h1, h2, h3]

/-- Helper: once `imageLoading` is false, no sequence of image events
makes it true again (both callbacks set it to false). -/
theorem runEvents_loading_stays_false (es : List ImgEvent) :
    ∀ s : RenderState, s.imageLoading = false →
      (runEvents s es).imageLoading = false := by
  induction es with
  | nil => intro s h; exact h
  | cons e es ih =>
    intro s h
    cases e <;> exact ih _ rfl

/-- C1: for every project with a non-empty `image` field, in a render
state with no image error, the rendered image source equals
`project.image` exactly. -/
theorem rendered_source_is_project_image (p : Project) (s : RenderState)
    (str : String) (himg : p.image = some str) (hne : str ≠ "")
    (herr : s.imageError = false) :
    (render p s).imageSrc = str := by
  have htruthy : optTruthy p.image = true :=
    (optTruthy_eq_true_iff p.image).mpr ⟨str, himg, hne⟩
  show getImageSource p s = str
  rw [getImageSource, if_pos (by simp [htruthy, herr]), himg, Option.getD_some]

/-- C1 witness: a concrete project with a set image and the initial
(error-free) state renders that image URL. -/
theorem rendered_source_is_project_image_witness :
    (render sampleProj initialState).imageSrc = "https://example.com/a.png" :=
  rendered_source_is_project_image sampleProj initialState
    "https://example.com/a.png" rfl (by decide) rfl

/-- C2: when the project image is not truthy or an error has occurred,
the rendered image source is the placeholder URL of the specification:
base `https://via.placeholder.com/800x600/`, the color pair selected by
category (blockchain, frontend, fullstack, default), `?text=` and the
percent-encoded title. -/
theorem rendered_source_is_spec_placeholder (p : Project) (s : RenderState)
    (h : optTruthy p.image = false ∨ s.imageError = true) :
    (render p s).imageSrc = placeholderSpec p.category p.title := by
  apply getImageSource_fallback
  rcases h with h | h <;> simp [h]

/-- C2 witness: the example project without an image renders the
frontend placeholder URL on the initial state. -/
theorem rendered_source_is_spec_placeholder_witness :
    (render projX initialState).imageSrc =
      "https://via.placeholder.com/800x600/1e1b4b/a855f7?text=X" := by
  rw [rendered_source_is_spec_placeholder projX initialState (Or.inl rfl)]
  decide

/-- C3: after an error event the error flag is set, the loading flag is
false, the spinner overlay is gone, and the rendered image source is
the category placeholder; the transition is total (no failure escapes
the component). -/
theorem error_event_falls_back_to_placeholder (p : Project) (s : RenderState) :
    (step s ImgEvent.error).imageError = true ∧
    (step s ImgEvent.error).imageLoading = false ∧
    (render p (step s ImgEvent.error)).showSpinner = false ∧
    (render p (step s ImgEvent.error)).imageSrc = placeholderSpec p.category p.title := by
  refine ⟨rfl, rfl, rfl, ?_⟩
  apply getImageSource_fallback
  simp [step]

/-- C4: starting from the initial state, under any sequence of load and
error events the loading flag is true exactly while no event has fired:
it turns false on the first event and never becomes true again. -/
theorem loading_false_after_first_event (es : List ImgEvent) :
    (runEvents initialState es).imageLoading = es.isEmpty := by
  cases es with
  | nil => rfl
  | cons e es =>
    show (runEvents (step initialState e) es).imageLoading = false
    exact runEvents_loading_stays_false es (step initialState e) (by cases e <;> rfl)

/-- C5: the code link is mounted iff `github` is truthy and the live
demo link iff `liveDemo` is truthy, and every mounted link carries the
href of its field plus target _blank and rel noopener noreferrer. -/
theorem links_iff_fields_set (p : Project) (s : RenderState) :
    ((render p s).githubLink.isSome = optTruthy p.github) ∧
    ((render p s).liveDemoLink.isSome = optTruthy p.liveDemo) ∧
    (∀ l : Link, (render p s).githubLink = some l →
      l.href = p.github.getD "" ∧ l.target = "_blank" ∧ l.rel = "noopener noreferrer") ∧
    (∀ l : Link, (render p s).liveDemoLink = some l →
      l.href = p.liveDemo.getD "" ∧ l.target = "_blank" ∧ l.rel = "noopener noreferrer") := by
  refine ⟨?_, ?_, ?_, ?_⟩ <;> simp only [render] <;>
    by_cases hg : optTruthy p.github = true <;>
      by_cases hl : optTruthy p.liveDemo = true <;>
        simp [hg, hl]

/-- C5 witness: the fully populated sample project mounts the code
link and the example project mounts no live-demo link, by the iff. -/
theorem links_iff_fields_set_witness :
    (render sampleProj initialState).githubLink.isSome = true ∧
    (render projX initialState).liveDemoLink.isSome = false := by
  refine ⟨?_, ?_⟩
  · rw [(links_iff_fields_set sampleProj initialState).1]
    decide
  · rw [(links_iff_fields_set projX initialState).2.1]
    decide

/-- C6: the LIVE DEMO badge is mounted exactly when the `liveDemo`
field holds a non-empty string (the truthiness the guard tests). -/
theorem live_demo_badge_iff_truthy (p : Project) (s : RenderState) :
    (render p s).liveDemoBadge = true ↔
      ∃ str : String, p.liveDemo = some str ∧ str ≠ "" := by
  exact optTruthy_eq_true_iff p.liveDemo

/-- C7: the Featured badge is mounted exactly when `featured` is true. -/
theorem featured_badge_iff_featured (p : Project) (s : RenderState) :
    (render p s).featuredBadge = true ↔ p.featured = true :=
  Iff.rfl

/-- C8: the example project (title X, category frontend, no image,
technologies A and B, no links, not featured) renders, on the initial
state, the frontend placeholder URL, exactly the tags A then B, no
badge and no link. -/
theorem example_project_first_render :
    (render projX initialState).imageSrc =
      "https://via.placeholder.com/800x600/1e1b4b/a855f7?text=X" ∧
    (render projX initialState).techTags = ["A", "B"] ∧
    (render projX initialState).liveDemoBadge = false ∧
    (render projX initialState).featuredBadge = false ∧
    (render projX initialState).githubLink = none ∧
    (render projX initialState).liveDemoLink = none := by
  refine ⟨by decide, rfl, rfl, rfl, rfl, rfl⟩

/-- C9: an image field holding the empty string is treated as unset:
even with no error recorded, the rendered source is the category
placeholder, because the guard tests truthiness, not presence. -/
theorem empty_image_treated_as_unset (p : Project) (s : RenderState)
    (himg : p.image = some "") (herr : s.imageError = false) :
    (render p s).imageSrc = placeholderSpec p.category p.title := by
  apply getImageSource_fallback
  have h0 : optTruthy (some "") = false := by decide
  rw [himg, h0, Bool.false_and]

/-- C9 witness: a concrete project whose image is the empty string and
whose category is unrecognized renders the default-pair placeholder
with the space in the title percent-encoded. -/
theorem empty_image_treated_as_unset_witness :
    (render projEmptyImage initialState).imageSrc =
      "https://via.placeholder.com/800x600/1e293b/64748b?text=A%20B" := by
  rw [empty_image_treated_as_unset projEmptyImage initialState rfl rfl]
  decide

/-- C10: a load event only clears the loading flag: it leaves the
error flag unchanged, and the rendered image source is the same before
and after the event. -/
theorem load_event_preserves_source (p : Project) (s : RenderState) :
    (step s ImgEvent.load).imageError = s.imageError ∧
    (step s ImgEvent.load).imageLoading = false ∧
    (render p (step s ImgEvent.load)).imageSrc = (render p s).imageSrc :=
  ⟨rfl, rfl, rfl⟩

end ProjectCard
